import Mathlib

/-!
Shallow embedding of the PV-battery-optimization-costs LCOE pipeline.

Source files modelled here:
  - src/libs/process.py        (the stage functions the orchestrator uses)
  - src/libs/LCOE_calculation.py (a near-duplicate module of the same stages)
  - src/libs/utils.py          (the handle_exceptions decorator)
  - src/libs/models.py         (LCEO.calculate_LCOE, the per-record orchestrator)

Modelling conventions:
  - Numeric cell and parameter values are rationals.  A missing or
    not-computable value (the NaN sentinel of the source, produced both by
    NaN-poisoned arithmetic and by the exception handlers) is modelled as
    Option.none; a defined value v as some v.
  - Python round(x, n) is round-half-to-even at n decimal digits; it is
    modelled exactly on the rationals by roundHalfEven / round2 / round4.
  - A comparison chain applied to NaN is false in every branch, so a stage
    whose input is none resolves no tier and returns none, matching the
    source where NaN falls through every if/elif.
  - Division by zero raises ZeroDivisionError in Python; the branches where
    the source would raise (and its try/except would produce NaN) are the
    branches returning none in the definitions below.
  - The expression x or 0 of the duplicate module is the identity on float
    cells, because NaN is truthy in Python and 0 or 0 is 0; it is therefore
    not given a separate model.
-/

namespace PVBattery

/-- Round a rational to the nearest integer, ties to even: the semantics of
the Python built-in round on exact values. -/
def roundHalfEven (q : ℚ) : ℤ :=
  let f : ℤ := ⌊q⌋
  let frac : ℚ := q - f
  if frac < 1/2 then f
  else if 1/2 < frac then f + 1
  else if f % 2 = 0 then f else f + 1

/-- Python round(x, 2) on exact values. -/
def round2 (q : ℚ) : ℚ := (roundHalfEven (q * 100) : ℚ) / 100

/-- Python round(x, 4) on exact values. -/
def round4 (q : ℚ) : ℚ := (roundHalfEven (q * 10000) : ℚ) / 10000

/-- The three-tier test shared by both calculate_demand versions
(src/libs/process.py lines 44-49 and src/libs/LCOE_calculation.py lines
45-50 / 53-59): tier 1 gives count * e_low, tier 2 gives e_high, tier 3
gives e_medium, otherwise the value stays undefined.  The fallback block of
the duplicate module tests the first two (mutually exclusive) guards in the
opposite order, which does not change the result. -/
def demandTier (c e_low e_medium e_high pop_low pop_high : ℚ) : Option ℚ :=
  if pop_low < c ∧ c ≤ pop_high then some (c * e_low)
  else if pop_high < c then some e_high
  else if 0 < c ∧ c ≤ pop_low then some e_medium
  else none

/-- calculate_demand of src/libs/process.py (lines 8-51), the version the
orchestrator in src/libs/models.py applies.  It reads only the modelled
student count from the row; there is no fallback to student_school (the
docstring of the source function describes one, but the code has none). -/
def calculate_demand (student_count : Option ℚ)
    (e_low e_medium e_high pop_low pop_high : ℚ) : Option ℚ :=
  match student_count with
  | none => none
  | some c => (demandTier c e_low e_medium e_high pop_low pop_high).map round2

/-- One component of calculate_pv_size (src/libs/process.py lines 83-84):
nominal * demand / (300 * 365), rounded to 2 decimals; NaN in either operand
poisons the product. -/
def sizeComponent (nominal demand : Option ℚ) : Option ℚ :=
  match nominal, demand with
  | some nv, some dv => some (round2 (nv * dv / (300 * 365)))
  | _, _ => none

/-- calculate_pv_size of src/libs/process.py (lines 54-92): returns the pair
(pv_kw_e, bat_kw_e). -/
def calculate_pv_size (demand_e pv_kw_t bat_kw_t : Option ℚ) :
    Option ℚ × Option ℚ :=
  (sizeComponent pv_kw_t demand_e, sizeComponent bat_kw_t demand_e)

/-- calculate_capex of src/libs/process.py (lines 95-135): capex is
soft_cost * (pv_kw_e * pv_costs + bat_kw_e * bat_costs); capex_oem is the
unrounded capex times oem; both are rounded to 2 decimals on return. -/
def calculate_capex (pv_kw_e bat_kw_e : Option ℚ)
    (pv_costs bat_costs oem soft_cost : ℚ) : Option ℚ × Option ℚ :=
  match pv_kw_e, bat_kw_e with
  | some p, some b =>
      let capex : ℚ := soft_cost * (p * pv_costs + b * bat_costs)
      (some (round2 capex), some (round2 (capex * oem)))
  | _, _ => (none, none)

/-- The replace_battery_cost of the year loops in calculate_npv_e and
calculate_opex (src/libs/process.py lines 176-179 and 295-298): the battery
is replaced when the year is a multiple of bat_life_time, except in the
final year of the horizon (in the source the loop counter n satisfies
n + 1 = year, so the guard n + 1 != t_pv is year != t_pv). -/
def replaceCost (bat_kw_e bat_costs : ℚ) (year t_pv bat_life_time : ℕ) : ℚ :=
  if year % bat_life_time = 0 ∧ year ≠ t_pv then bat_kw_e * bat_costs else 0

/-- calculate_npv_e of src/libs/process.py (lines 138-188): accumulator
starts at capex; each year 1..t_pv adds replaceCost plus the discounted
capex_oem.  bat_life_time = 0 makes the modulus raise, and 1 + r = 0 makes
the division raise once the loop runs, both caught into NaN. -/
def calculate_npv_e (capex capex_oem bat_kw_e : Option ℚ) (bat_costs : ℚ)
    (t_pv : ℕ) (r : ℚ) (bat_life_time : ℕ) : Option ℚ :=
  match capex, capex_oem, bat_kw_e with
  | some cx, some co, some bk =>
      if bat_life_time = 0 ∨ (1 ≤ t_pv ∧ 1 + r = 0) then none
      else some (round2 (cx + ∑ y ∈ Finset.Icc 1 t_pv,
        (replaceCost bk bat_costs y t_pv bat_life_time + co / (1 + r) ^ y)))
  | _, _, _ => none

/-- calculate_npv_demand_e of src/libs/process.py (lines 191-223): the sum
of demand_e / (1+r)^x for x in range(0, t_pv + 1). -/
def calculate_npv_demand_e (demand_e : Option ℚ) (t_pv : ℕ) (r : ℚ) :
    Option ℚ :=
  match demand_e with
  | none => none
  | some d =>
      if 1 ≤ t_pv ∧ 1 + r = 0 then none
      else some (round2 (∑ x ∈ Finset.range (t_pv + 1), d / (1 + r) ^ x))

/-- calculate_lcoe_e of src/libs/process.py (lines 226-257): npv_e divided
by npv_demand_e, rounded to 4 decimals; a zero denominator raises
ZeroDivisionError, caught into NaN by the inner try/except. -/
def calculate_lcoe_e (npv_e npv_demand_e : Option ℚ) : Option ℚ :=
  match npv_e, npv_demand_e with
  | some a, some b => if b = 0 then none else some (round4 (a / b))
  | _, _ => none

/-- calculate_opex of src/libs/process.py (lines 260-309): the same year
loop as calculate_npv_e without discounting, accumulating replaceCost plus
capex_oem, divided by t_pv on exit (t_pv = 0 raises, caught into NaN). -/
def calculate_opex (capex_oem bat_kw_e : Option ℚ) (bat_costs : ℚ)
    (t_pv bat_life_time : ℕ) : Option ℚ :=
  match capex_oem, bat_kw_e with
  | some co, some bk =>
      if bat_life_time = 0 ∨ t_pv = 0 then none
      else some (round2 ((∑ y ∈ Finset.Icc 1 t_pv,
        (replaceCost bk bat_costs y t_pv bat_life_time + co)) / t_pv))
  | _, _ => none

/-- calculate_co2_e of src/libs/process.py (lines 312-344). -/
def calculate_co2_e (demand_e : Option ℚ) (lca_diesel lca_pv : ℚ) :
    Option ℚ :=
  match demand_e with
  | none => none
  | some d => some (round4 ((lca_diesel - lca_pv) * d / 1000))

/-- calculate_demand of src/libs/LCOE_calculation.py (lines 8-61), the
duplicate module: the same three-tier test on student_count, then, when that
left the demand undefined, the same three-tier test on student_school. -/
def LCOEcalc_calculate_demand (student_count student_school : Option ℚ)
    (e_low e_medium e_high pop_low pop_high : ℚ) : Option ℚ :=
  let primary : Option ℚ :=
    match student_count with
    | none => none
    | some c => demandTier c e_low e_medium e_high pop_low pop_high
  match primary with
  | some v => some (round2 v)
  | none =>
      match student_school with
      | none => none
      | some s => (demandTier s e_low e_medium e_high pop_low pop_high).map round2

/-- calculate_pv_size of src/libs/LCOE_calculation.py (lines 64-100); the
or 0 coalescing is the identity on float cells (see the header comment). -/
def LCOEcalc_calculate_pv_size (demand_e pv_kw_t bat_kw_t : Option ℚ) :
    Option ℚ × Option ℚ :=
  (sizeComponent pv_kw_t demand_e, sizeComponent bat_kw_t demand_e)

/-- calculate_capex of src/libs/LCOE_calculation.py (lines 103-141). -/
def LCOEcalc_calculate_capex (pv_kw_e bat_kw_e : Option ℚ)
    (pv_costs bat_costs oem soft_cost : ℚ) : Option ℚ × Option ℚ :=
  match pv_kw_e, bat_kw_e with
  | some p, some b =>
      let capex : ℚ := soft_cost * (p * pv_costs + b * bat_costs)
      (some (round2 capex), some (round2 (capex * oem)))
  | _, _ => (none, none)

/-- calculate_npv_e of src/libs/LCOE_calculation.py (lines 144-192). -/
def LCOEcalc_calculate_npv_e (capex capex_oem bat_kw_e : Option ℚ)
    (bat_costs : ℚ) (t_pv : ℕ) (r : ℚ) (bat_life_time : ℕ) : Option ℚ :=
  match capex, capex_oem, bat_kw_e with
  | some cx, some co, some bk =>
      if bat_life_time = 0 ∨ (1 ≤ t_pv ∧ 1 + r = 0) then none
      else some (round2 (cx + ∑ y ∈ Finset.Icc 1 t_pv,
        (replaceCost bk bat_costs y t_pv bat_life_time + co / (1 + r) ^ y)))
  | _, _, _ => none

/-- calculate_npv_demand_e of src/libs/LCOE_calculation.py (lines 195-224). -/
def LCOEcalc_calculate_npv_demand_e (demand_e : Option ℚ) (t_pv : ℕ)
    (r : ℚ) : Option ℚ :=
  match demand_e with
  | none => none
  | some d =>
      if 1 ≤ t_pv ∧ 1 + r = 0 then none
      else some (round2 (∑ x ∈ Finset.range (t_pv + 1), d / (1 + r) ^ x))

/-- calculate_lcoe_e of src/libs/LCOE_calculation.py (lines 227-255). -/
def LCOEcalc_calculate_lcoe_e (npv_e npv_demand_e : Option ℚ) : Option ℚ :=
  match npv_e, npv_demand_e with
  | some a, some b => if b = 0 then none else some (round4 (a / b))
  | _, _ => none

/-- calculate_opex of src/libs/LCOE_calculation.py (lines 258-306). -/
def LCOEcalc_calculate_opex (capex_oem bat_kw_e : Option ℚ) (bat_costs : ℚ)
    (t_pv bat_life_time : ℕ) : Option ℚ :=
  match capex_oem, bat_kw_e with
  | some co, some bk =>
      if bat_life_time = 0 ∨ t_pv = 0 then none
      else some (round2 ((∑ y ∈ Finset.Icc 1 t_pv,
        (replaceCost bk bat_costs y t_pv bat_life_time + co)) / t_pv))
  | _, _ => none

/-- calculate_co2_e of src/libs/LCOE_calculation.py (lines 309-339). -/
def LCOEcalc_calculate_co2_e (demand_e : Option ℚ) (lca_diesel lca_pv : ℚ) :
    Option ℚ :=
  match demand_e with
  | none => none
  | some d => some (round4 ((lca_diesel - lca_pv) * d / 1000))

/-- handle_exceptions of src/libs/utils.py (lines 11-31): the decorator
wrapping every stage runs the function inside try/except; a raising call
produces the undefined result (the wrapper returns None, which the column
assignment stores as the NaN sentinel) and the exception is never
re-raised.  A stage body that can raise is modelled as a function into
Except, and the wrapped stage is total into Option. -/
def handle_exceptions {α β : Type} (f : α → Except String β) (a : α) :
    Option β :=
  match f a with
  | Except.ok b => some b
  | Except.error _ => none

/-- The configuration groups consumed by LCEO.calculate_LCOE
(src/libs/models.py lines 56-133): lcoe_parameters.demand,
lcoe_parameters.students, pv_parameters.costs, pv_parameters.OEM and
pv_parameters.LCA. -/
structure Config where
  e_low : ℚ
  e_medium : ℚ
  e_high : ℚ
  p_low : ℚ
  p_high : ℚ
  pv_eur : ℚ
  bat_eur : ℚ
  soft_cost : ℚ
  O_M : ℚ
  t_PV : ℕ
  r : ℚ
  life_time_bat : ℕ
  lca_diesel : ℚ
  lca_PV : ℚ

/-- The input columns of one record that the pipeline reads. -/
structure InputRow where
  student_count : Option ℚ
  student_school : Option ℚ
  pv_kw_t : Option ℚ
  bat_kw_t : Option ℚ

/-- One record of the table calculate_LCOE returns: the input columns,
unchanged, plus the ten derived columns in stage order. -/
structure OutputRow where
  input : InputRow
  demand_e : Option ℚ
  pv_kw_e : Option ℚ
  bat_kw_e : Option ℚ
  capex : Option ℚ
  capex_oem : Option ℚ
  npv_e : Option ℚ
  npv_demand_e : Option ℚ
  lcoe_e : Option ℚ
  opex : Option ℚ
  co2_e : Option ℚ

/-- LCEO.calculate_LCOE of src/libs/models.py (lines 38-135), restricted to
one record: the eight stages of src/libs/process.py applied in the source
order, each reading input columns or columns written by an earlier stage.
The source copies the frame before writing any column, so the input row is
only read. -/
def calculate_LCOE (cfg : Config) (row : InputRow) : OutputRow :=
  let demand_e := calculate_demand row.student_count
    cfg.e_low cfg.e_medium cfg.e_high cfg.p_low cfg.p_high
  let sizes := calculate_pv_size demand_e row.pv_kw_t row.bat_kw_t
  let caps := calculate_capex sizes.1 sizes.2
    cfg.pv_eur cfg.bat_eur cfg.O_M cfg.soft_cost
  let npv_e := calculate_npv_e caps.1 caps.2 sizes.2
    cfg.bat_eur cfg.t_PV cfg.r cfg.life_time_bat
  let npv_demand_e := calculate_npv_demand_e demand_e cfg.t_PV cfg.r
  let lcoe_e := calculate_lcoe_e npv_e npv_demand_e
  let opex := calculate_opex caps.2 sizes.2 cfg.bat_eur cfg.t_PV cfg.life_time_bat
  let co2_e := calculate_co2_e demand_e cfg.lca_diesel cfg.lca_PV
  { input := row
    demand_e := demand_e
    pv_kw_e := sizes.1
    bat_kw_e := sizes.2
    capex := caps.1
    capex_oem := caps.2
    npv_e := npv_e
    npv_demand_e := npv_demand_e
    lcoe_e := lcoe_e
    opex := opex
    co2_e := co2_e }

/-- The whole table: calculate_LCOE applied record by record, preserving
the order of the rows. -/
def calculate_LCOE_table (cfg : Config) (rows : List InputRow) :
    List OutputRow :=
  rows.map (calculate_LCOE cfg)

end PVBattery

namespace PVBattery

/-! ### Helper lemmas -/

lemma roundHalfEven_nonneg (q : ℚ) (h : 0 ≤ q) : 0 ≤ roundHalfEven q := by
  have hf : (0 : ℤ) ≤ ⌊q⌋ := by
    rw [Int.le_floor]
    exact_mod_cast h
  unfold roundHalfEven
  dsimp only
  split_ifs <;> omega

lemma round2_nonneg (q : ℚ) (h : 0 ≤ q) : 0 ≤ round2 q := by
  have h1 : (0 : ℚ) ≤ (roundHalfEven (q * 100) : ℚ) := by
    exact_mod_cast roundHalfEven_nonneg (q * 100) (by positivity)
  exact div_nonneg h1 (by norm_num)

lemma demandTier_nonneg (c e_low e_medium e_high pop_low pop_high q : ℚ)
    (hc : 0 ≤ c) (h1 : 0 ≤ e_low) (h2 : 0 ≤ e_medium) (h3 : 0 ≤ e_high)
    (h : demandTier c e_low e_medium e_high pop_low pop_high = some q) :
    0 ≤ q := by
  unfold demandTier at h
  split_ifs at h
  · injection h with h
    exact h ▸ mul_nonneg hc h1
  · injection h with h
    exact h ▸ h3
  · injection h with h
    exact h ▸ h2

lemma calculate_demand_nonneg (sc : Option ℚ)
    (e_low e_medium e_high pop_low pop_high : ℚ)
    (hsc : ∀ c, sc = some c → 0 ≤ c)
    (h1 : 0 ≤ e_low) (h2 : 0 ≤ e_medium) (h3 : 0 ≤ e_high) :
    ∀ q, calculate_demand sc e_low e_medium e_high pop_low pop_high = some q →
      0 ≤ q := by
  intro q h
  cases sc with
  | none => exact Option.noConfusion h
  | some c =>
    simp only [calculate_demand, Option.map_eq_some'] at h
    obtain ⟨w, hw, hr⟩ := h
    exact hr ▸ round2_nonneg w
      (demandTier_nonneg c e_low e_medium e_high pop_low pop_high w
        (hsc c rfl) h1 h2 h3 hw)

lemma sizeComponent_nonneg (n d : Option ℚ)
    (hn : ∀ q, n = some q → 0 ≤ q) (hd : ∀ q, d = some q → 0 ≤ q) :
    ∀ q, sizeComponent n d = some q → 0 ≤ q := by
  intro q h
  cases n with
  | none => exact Option.noConfusion h
  | some nv =>
    cases d with
    | none => exact Option.noConfusion h
    | some dv =>
      simp only [sizeComponent, Option.some.injEq] at h
      exact h ▸ round2_nonneg _
        (div_nonneg (mul_nonneg (hn nv rfl) (hd dv rfl)) (by norm_num))

lemma calculate_capex_nonneg (p b : Option ℚ)
    (pv_costs bat_costs oem soft_cost : ℚ)
    (hp : ∀ q, p = some q → 0 ≤ q) (hb : ∀ q, b = some q → 0 ≤ q)
    (h1 : 0 ≤ pv_costs) (h2 : 0 ≤ bat_costs) (h3 : 0 ≤ oem)
    (h4 : 0 ≤ soft_cost) :
    (∀ q, (calculate_capex p b pv_costs bat_costs oem soft_cost).1 = some q →
      0 ≤ q) ∧
    (∀ q, (calculate_capex p b pv_costs bat_costs oem soft_cost).2 = some q →
      0 ≤ q) := by
  cases p with
  | none => exact ⟨fun q h => Option.noConfusion h, fun q h => Option.noConfusion h⟩
  | some pv =>
    cases b with
    | none => exact ⟨fun q h => Option.noConfusion h, fun q h => Option.noConfusion h⟩
    | some bv =>
      have hcap : 0 ≤ soft_cost * (pv * pv_costs + bv * bat_costs) :=
        mul_nonneg h4
          (add_nonneg (mul_nonneg (hp pv rfl) h1) (mul_nonneg (hb bv rfl) h2))
      constructor
      · intro q h
        simp only [calculate_capex, Option.some.injEq] at h
        exact h ▸ round2_nonneg _ hcap
      · intro q h
        simp only [calculate_capex, Option.some.injEq] at h
        exact h ▸ round2_nonneg _ (mul_nonneg hcap h3)

lemma calculate_opex_nonneg (co bk : Option ℚ) (bat_costs : ℚ)
    (t_pv bl : ℕ)
    (hco : ∀ q, co = some q → 0 ≤ q) (hbk : ∀ q, bk = some q → 0 ≤ q)
    (hbc : 0 ≤ bat_costs) :
    ∀ q, calculate_opex co bk bat_costs t_pv bl = some q → 0 ≤ q := by
  intro q h
  cases co with
  | none => exact Option.noConfusion h
  | some cov =>
    cases bk with
    | none => exact Option.noConfusion h
    | some bkv =>
      simp only [calculate_opex] at h
      split_ifs at h
      simp only [Option.some.injEq] at h
      refine h ▸ round2_nonneg _
        (div_nonneg (Finset.sum_nonneg fun y hy => ?_) (by positivity))
      have hrc : 0 ≤ replaceCost bkv bat_costs y t_pv bl := by
        unfold replaceCost
        split_ifs
        · exact mul_nonneg (hbk bkv rfl) hbc
        · exact le_refl 0
      exact add_nonneg hrc (hco cov rfl)

/-! ### Claim theorems -/

/-- Claim C1: the tier selection of calculate_demand (src/libs/process.py).
For pop_low < c <= pop_high the result is round(c * e_low, 2); at the
boundary c = pop_low (with c > 0) the medium tier applies, not the low-tier
product; for c > pop_high the result is e_high however large c is.  The
medium and high tier values are assumed stable under 2-decimal rounding
(the source rounds every returned value), and the thresholds well formed as
the data-model invariant p_low < p_high requires. -/
theorem demand_tier_correct
    (e_low e_medium e_high pop_low pop_high c : ℚ)
    (hth : pop_low < pop_high)
    (hm : round2 e_medium = e_medium) (hh : round2 e_high = e_high) :
    (pop_low < c ∧ c ≤ pop_high →
      calculate_demand (some c) e_low e_medium e_high pop_low pop_high
        = some (round2 (c * e_low))) ∧
    (c = pop_low ∧ 0 < c →
      calculate_demand (some c) e_low e_medium e_high pop_low pop_high
        = some e_medium) ∧
    (pop_high < c →
      calculate_demand (some c) e_low e_medium e_high pop_low pop_high
        = some e_high) := by
  refine ⟨fun h => ?_, fun h => ?_, fun h => ?_⟩
  · simp only [calculate_demand, demandTier, if_pos h, Option.map_some']
  · obtain ⟨hceq, hcpos⟩ := h
    have g1 : ¬(pop_low < c ∧ c ≤ pop_high) := fun hx =>
      absurd hx.1 (hceq ▸ lt_irrefl pop_low)
    have g2 : ¬pop_high < c := not_lt.mpr (hceq ▸ hth.le)
    have g3 : 0 < c ∧ c ≤ pop_low := ⟨hcpos, le_of_eq hceq⟩
    simp only [calculate_demand, demandTier, if_neg g1, if_neg g2, if_pos g3,
      Option.map_some']
    rw [hm]
  · have g1 : ¬(pop_low < c ∧ c ≤ pop_high) := fun hx =>
      absurd h (not_lt.mpr hx.2)
    simp only [calculate_demand, demandTier, if_neg g1, if_pos h,
      Option.map_some']
    rw [hh]

theorem demand_tier_correct_witness :
    calculate_demand (some 150) 50 20 5000 100 300 = some 7500 ∧
    calculate_demand (some 100) 50 20 5000 100 300 = some 20 ∧
    calculate_demand (some 10000) 50 20 5000 100 300 = some 5000 := by
  refine ⟨?_, ?_, ?_⟩
  · have h := (demand_tier_correct 50 20 5000 100 300 150 (by norm_num)
      (by norm_num [round2, roundHalfEven]) (by norm_num [round2, roundHalfEven])).1
      ⟨by norm_num, by norm_num⟩
    rw [h]
    norm_num [round2, roundHalfEven]
  · exact (demand_tier_correct 50 20 5000 100 300 100 (by norm_num)
      (by norm_num [round2, roundHalfEven]) (by norm_num [round2, roundHalfEven])).2.1
      ⟨rfl, by norm_num⟩
  · exact (demand_tier_correct 50 20 5000 100 300 10000 (by norm_num)
      (by norm_num [round2, roundHalfEven]) (by norm_num [round2, roundHalfEven])).2.2
      (by norm_num)

/-- Claim C2: the pipeline uses calculate_demand of src/libs/process.py,
which never consults student_school, against the claim (and against the
docstring of that very function and the duplicate module): on a record
where student_count resolves no tier but student_school does, the stage the
orchestrator applies returns the undefined sentinel while the documented
fallback behaviour (implemented only in src/libs/LCOE_calculation.py, which
src/libs/models.py does not import) would return 7500. -/
theorem demand_fallback_missing :
    calculate_demand (some 0) 50 20 5000 100 300 = none ∧
    LCOEcalc_calculate_demand (some 0) (some 150) 50 20 5000 100 300
      = some 7500 := by
  constructor
  · norm_num [calculate_demand, demandTier]
  · norm_num [LCOEcalc_calculate_demand, demandTier, round2, roundHalfEven]

/-- Claim C9, counterexample: the two same-named calculate_demand versions
disagree on a record whose student_count is the NaN sentinel and whose
student_school is 200 (thresholds 100/300, e_low 50): the process.py
version returns none, the LCOE_calculation.py version returns 10000. -/
theorem duplicate_modules_differ :
    calculate_demand none 50 20 5000 100 300 ≠
      LCOEcalc_calculate_demand none (some 200) 50 20 5000 100 300 := by
  have hR : LCOEcalc_calculate_demand none (some 200) 50 20 5000 100 300
      = some 10000 := by
    norm_num [LCOEcalc_calculate_demand, demandTier, round2, roundHalfEven]
  have hL : calculate_demand none 50 20 5000 100 300 = none := rfl
  rw [hL, hR]
  exact fun hc => Option.noConfusion hc

/-- Claim C9, amended: whenever the pipeline version (src/libs/process.py)
of calculate_demand is defined, the duplicate module returns the same
value — they differ only where the process.py version is undefined and
student_school resolves a tier — and every other stage function of the
duplicate module computes exactly the same result as its process.py
counterpart. -/
theorem duplicate_modules_agree_when_defined
    (sc ss : Option ℚ) (e_low e_medium e_high pop_low pop_high : ℚ) (v : ℚ)
    (h : calculate_demand sc e_low e_medium e_high pop_low pop_high = some v) :
    LCOEcalc_calculate_demand sc ss e_low e_medium e_high pop_low pop_high
      = some v ∧
    (∀ d p b, LCOEcalc_calculate_pv_size d p b = calculate_pv_size d p b) ∧
    (∀ p b pc bc oem soft, LCOEcalc_calculate_capex p b pc bc oem soft
      = calculate_capex p b pc bc oem soft) ∧
    (∀ cx co bk bc t r bl, LCOEcalc_calculate_npv_e cx co bk bc t r bl
      = calculate_npv_e cx co bk bc t r bl) ∧
    (∀ d t r, LCOEcalc_calculate_npv_demand_e d t r
      = calculate_npv_demand_e d t r) ∧
    (∀ a b, LCOEcalc_calculate_lcoe_e a b = calculate_lcoe_e a b) ∧
    (∀ co bk bc t bl, LCOEcalc_calculate_opex co bk bc t bl
      = calculate_opex co bk bc t bl) ∧
    (∀ d ld lp, LCOEcalc_calculate_co2_e d ld lp = calculate_co2_e d ld lp) := by
  refine ⟨?_, fun _ _ _ => rfl, fun _ _ _ _ _ _ => rfl,
    fun _ _ _ _ _ _ _ => rfl, fun _ _ _ => rfl, fun _ _ => rfl,
    fun _ _ _ _ _ => rfl, fun _ _ _ => rfl⟩
  cases sc with
  | none => exact Option.noConfusion h
  | some c =>
    cases hdt : demandTier c e_low e_medium e_high pop_low pop_high with
    | none =>
      rw [calculate_demand.eq_def] at h
      simp only [hdt, Option.map_none'] at h
      exact Option.noConfusion h
    | some w =>
      rw [calculate_demand.eq_def] at h
      simp only [hdt, Option.map_some', Option.some.injEq] at h
      simp only [LCOEcalc_calculate_demand, hdt]
      rw [h]

theorem duplicate_modules_agree_when_defined_witness :
    LCOEcalc_calculate_demand (some 150) none 50 20 5000 100 300
      = some 7500 ∧
    (∀ d p b, LCOEcalc_calculate_pv_size d p b = calculate_pv_size d p b) ∧
    (∀ p b pc bc oem soft, LCOEcalc_calculate_capex p b pc bc oem soft
      = calculate_capex p b pc bc oem soft) ∧
    (∀ cx co bk bc t r bl, LCOEcalc_calculate_npv_e cx co bk bc t r bl
      = calculate_npv_e cx co bk bc t r bl) ∧
    (∀ d t r, LCOEcalc_calculate_npv_demand_e d t r
      = calculate_npv_demand_e d t r) ∧
    (∀ a b, LCOEcalc_calculate_lcoe_e a b = calculate_lcoe_e a b) ∧
    (∀ co bk bc t bl, LCOEcalc_calculate_opex co bk bc t bl
      = calculate_opex co bk bc t bl) ∧
    (∀ d ld lp, LCOEcalc_calculate_co2_e d ld lp = calculate_co2_e d ld lp) :=
  duplicate_modules_agree_when_defined (some 150) none 50 20 5000 100 300 7500
    (by norm_num [calculate_demand, demandTier, round2, roundHalfEven])

end PVBattery

namespace PVBattery

/-- Claim C3: the NPV engine (calculate_npv_e of src/libs/process.py).  On
defined capex, capex_oem, bat_kw_e and positive t_pv, r and bat_life_time
it returns round2 of capex plus, for each year y from 1 to t_pv, a battery
replacement cost bat_kw_e * bat_costs exactly when bat_life_time divides y
(a positive multiple, since y is at least 1) and y is not the final year,
plus the discounted capex_oem / (1+r)^y; and for the horizon t_pv = 20 with
bat_life_time = 5 the replacement cost is charged in years 5, 10 and 15 but
not in year 20. -/
theorem npv_engine_spec (cx co bk bc r : ℚ) (t_pv bl : ℕ)
    (ht : 0 < t_pv) (hbl : 0 < bl) (hr : 0 < r) :
    calculate_npv_e (some cx) (some co) (some bk) bc t_pv r bl
      = some (round2 (cx + ∑ y ∈ Finset.Icc 1 t_pv,
          ((if bl ∣ y ∧ y ≠ t_pv then bk * bc else 0) + co / (1 + r) ^ y))) ∧
    (∀ y ∈ Finset.Icc 1 20, replaceCost bk bc y 20 5
      = if y = 5 ∨ y = 10 ∨ y = 15 then bk * bc else 0) := by
  constructor
  · have hg : ¬(bl = 0 ∨ (1 ≤ t_pv ∧ 1 + r = 0)) := by
      rintro (h0 | ⟨-, h0⟩)
      · omega
      · linarith
    simp only [calculate_npv_e, if_neg hg]
    congr 2
    refine congrArg (fun s => cx + s) ?_
    refine Finset.sum_congr rfl fun y hy => ?_
    simp [replaceCost, Nat.dvd_iff_mod_eq_zero]
  · intro y hy
    rw [Finset.mem_Icc] at hy
    obtain ⟨hy1, hy2⟩ := hy
    interval_cases y <;> norm_num [replaceCost]

theorem npv_engine_spec_witness :
    calculate_npv_e (some 100) (some 10) (some 2) 400 20 (1/20) 5
      = some (round2 (100 + ∑ y ∈ Finset.Icc 1 20,
          ((if 5 ∣ y ∧ y ≠ 20 then 2 * 400 else (0:ℚ)) + 10 / (1 + 1/20) ^ y))) ∧
    (∀ y ∈ Finset.Icc 1 20, replaceCost 2 400 y 20 5
      = if y = 5 ∨ y = 10 ∨ y = 15 then 2 * 400 else 0) :=
  npv_engine_spec 100 10 2 400 (1/20) 20 5 (by norm_num) (by norm_num)
    (by norm_num)

/-- Claim C4: calculate_npv_demand_e of src/libs/process.py returns, for a
defined demand and positive t_pv and r, round2 of the sum of
demand / (1+r)^x for x from 0 to t_pv inclusive — t_pv + 1 terms, the term
at x = 0 being the undiscounted demand itself. -/
theorem npv_demand_spec (d r : ℚ) (t_pv : ℕ) (ht : 0 < t_pv) (hr : 0 < r) :
    calculate_npv_demand_e (some d) t_pv r
      = some (round2 (∑ x ∈ Finset.range (t_pv + 1), d / (1 + r) ^ x)) ∧
    (Finset.range (t_pv + 1)).card = t_pv + 1 ∧
    d / (1 + r) ^ (0 : ℕ) = d := by
  refine ⟨?_, Finset.card_range _, by simp⟩
  have hg : ¬(1 ≤ t_pv ∧ 1 + r = 0) := by
    rintro ⟨-, h0⟩
    linarith
  simp only [calculate_npv_demand_e, if_neg hg]

theorem npv_demand_spec_witness :
    calculate_npv_demand_e (some 7500) 20 (1/20)
      = some (round2 (∑ x ∈ Finset.range (20 + 1), 7500 / (1 + 1/20) ^ x)) ∧
    (Finset.range (20 + 1)).card = 20 + 1 ∧
    (7500 : ℚ) / (1 + 1/20) ^ (0 : ℕ) = 7500 :=
  npv_demand_spec 7500 (1/20) 20 (by norm_num) (by norm_num)

/-- Claim C5: calculate_lcoe_e of src/libs/process.py returns
round4 (npv_e / npv_demand_e) when both operands are defined and the
denominator is nonzero, and its result is the undefined sentinel exactly
when an operand is undefined or the denominator is zero — the
ZeroDivisionError is absorbed inside the stage, the model of which is that
the function is total on Option. -/
theorem lcoe_combiner_spec (a b : ℚ) (hb : b ≠ 0) :
    calculate_lcoe_e (some a) (some b) = some (round4 (a / b)) ∧
    (∀ x y : Option ℚ,
      calculate_lcoe_e x y = none ↔ x = none ∨ y = none ∨ y = some 0) := by
  constructor
  · simp [calculate_lcoe_e, hb]
  · intro x y
    cases x with
    | none => simp [calculate_lcoe_e]
    | some a0 =>
      cases y with
      | none => simp [calculate_lcoe_e]
      | some b0 =>
        by_cases h0 : b0 = 0 <;> simp [calculate_lcoe_e, h0]

theorem lcoe_combiner_spec_witness :
    calculate_lcoe_e (some 6) (some 2) = some (round4 (6 / 2)) ∧
    (∀ x y : Option ℚ,
      calculate_lcoe_e x y = none ↔ x = none ∨ y = none ∨ y = some 0) :=
  lcoe_combiner_spec 6 2 (by norm_num)

/-- Claim C6: calculate_pv_size of src/libs/process.py returns exactly the
pair (round2 (pv_kw_t * demand_e / (300*365)),
round2 (bat_kw_t * demand_e / (300*365))) on defined inputs, an undefined
demand gives the undefined sentinel in both components, and the scenario
demand 7500, pv_kw_t 10, bat_kw_t 5 gives (0.68, 0.34). -/
theorem pv_size_spec :
    (∀ d p b : ℚ, calculate_pv_size (some d) (some p) (some b)
      = (some (round2 (p * d / (300 * 365))),
         some (round2 (b * d / (300 * 365))))) ∧
    (∀ p b : Option ℚ, calculate_pv_size none p b = (none, none)) ∧
    calculate_pv_size (some 7500) (some 10) (some 5)
      = (some (68/100), some (34/100)) := by
  refine ⟨fun d p b => rfl, fun p b => ?_, ?_⟩
  · cases p <;> cases b <;> rfl
  · have h1 : round2 (10 * 7500 / (300 * 365) : ℚ) = 68/100 := by
      norm_num [round2, roundHalfEven]
    have h2 : round2 (5 * 7500 / (300 * 365) : ℚ) = 34/100 := by
      norm_num [round2, roundHalfEven]
    calc calculate_pv_size (some 7500) (some 10) (some 5)
        = (some (round2 (10 * 7500 / (300 * 365))),
           some (round2 (5 * 7500 / (300 * 365)))) := rfl
      _ = (some (68/100), some (34/100)) := by rw [h1, h2]

/-- Claim C7: handle_exceptions of src/libs/utils.py wraps every stage; a
stage body that raises is mapped to the undefined result for that record,
the exception is never re-raised, and mapping the wrapped stage over a
batch still produces one output per record. -/
theorem stage_exception_containment {α β : Type} (f : α → Except String β)
    (rows : List α) (a : α) (e : String) (h : f a = Except.error e) :
    handle_exceptions f a = none ∧
    (rows.map (handle_exceptions f)).length = rows.length := by
  constructor
  · simp [handle_exceptions, h]
  · exact List.length_map rows (handle_exceptions f)

theorem stage_exception_containment_witness :
    handle_exceptions (fun _ : ℚ => (Except.error "fail" : Except String ℚ)) 1
      = none ∧
    (([1, 2, 3] : List ℚ).map
        (handle_exceptions fun _ : ℚ => (Except.error "fail" : Except String ℚ))).length
      = ([1, 2, 3] : List ℚ).length :=
  stage_exception_containment (fun _ => Except.error "fail") [1, 2, 3] 1 "fail"
    rfl

end PVBattery

namespace PVBattery

/-- Claim C8: non-negativity invariant of the pipeline.  When the raw input
columns (student counts and the nominal capacities) and the configuration
parameters e_low, e_medium, e_high, pv_eur, bat_eur, soft_cost and O_M are
non-negative and the thresholds are well formed, every defined value of
pv_kw_e, bat_kw_e, capex, capex_oem and opex that calculate_LCOE produces
is non-negative. -/
theorem pipeline_nonneg (cfg : Config) (row : InputRow)
    (hsc : ∀ c, row.student_count = some c → 0 ≤ c)
    (hss : ∀ c, row.student_school = some c → 0 ≤ c)
    (hpv : ∀ c, row.pv_kw_t = some c → 0 ≤ c)
    (hbt : ∀ c, row.bat_kw_t = some c → 0 ≤ c)
    (h1 : 0 ≤ cfg.e_low) (h2 : 0 ≤ cfg.e_medium) (h3 : 0 ≤ cfg.e_high)
    (h4 : 0 ≤ cfg.pv_eur) (h5 : 0 ≤ cfg.bat_eur) (h6 : 0 ≤ cfg.soft_cost)
    (h7 : 0 ≤ cfg.O_M) (hth : cfg.p_low < cfg.p_high) :
    (∀ q, (calculate_LCOE cfg row).pv_kw_e = some q → 0 ≤ q) ∧
    (∀ q, (calculate_LCOE cfg row).bat_kw_e = some q → 0 ≤ q) ∧
    (∀ q, (calculate_LCOE cfg row).capex = some q → 0 ≤ q) ∧
    (∀ q, (calculate_LCOE cfg row).capex_oem = some q → 0 ≤ q) ∧
    (∀ q, (calculate_LCOE cfg row).opex = some q → 0 ≤ q) := by
  have hd := calculate_demand_nonneg row.student_count
    cfg.e_low cfg.e_medium cfg.e_high cfg.p_low cfg.p_high hsc h1 h2 h3
  have hpq := sizeComponent_nonneg row.pv_kw_t
    (calculate_demand row.student_count
      cfg.e_low cfg.e_medium cfg.e_high cfg.p_low cfg.p_high) hpv hd
  have hbq := sizeComponent_nonneg row.bat_kw_t
    (calculate_demand row.student_count
      cfg.e_low cfg.e_medium cfg.e_high cfg.p_low cfg.p_high) hbt hd
  have hcap := calculate_capex_nonneg
    (sizeComponent row.pv_kw_t
      (calculate_demand row.student_count
        cfg.e_low cfg.e_medium cfg.e_high cfg.p_low cfg.p_high))
    (sizeComponent row.bat_kw_t
      (calculate_demand row.student_count
        cfg.e_low cfg.e_medium cfg.e_high cfg.p_low cfg.p_high))
    cfg.pv_eur cfg.bat_eur cfg.O_M cfg.soft_cost hpq hbq h4 h5 h7 h6
  have hop := calculate_opex_nonneg
    (calculate_capex
      (sizeComponent row.pv_kw_t
        (calculate_demand row.student_count
          cfg.e_low cfg.e_medium cfg.e_high cfg.p_low cfg.p_high))
      (sizeComponent row.bat_kw_t
        (calculate_demand row.student_count
          cfg.e_low cfg.e_medium cfg.e_high cfg.p_low cfg.p_high))
      cfg.pv_eur cfg.bat_eur cfg.O_M cfg.soft_cost).2
    (sizeComponent row.bat_kw_t
      (calculate_demand row.student_count
        cfg.e_low cfg.e_medium cfg.e_high cfg.p_low cfg.p_high))
    cfg.bat_eur cfg.t_PV cfg.life_time_bat hcap.2 hbq h5
  exact ⟨hpq, hbq, hcap.1, hcap.2, hop⟩

theorem pipeline_nonneg_witness :
    (∀ q, (calculate_LCOE
      ⟨50, 20, 5000, 100, 300, 800, 400, 11/10, 21/20, 20, 1/20, 5, 700, 50⟩
      ⟨some 150, none, some 10, some 5⟩).pv_kw_e = some q → 0 ≤ q) ∧
    (∀ q, (calculate_LCOE
      ⟨50, 20, 5000, 100, 300, 800, 400, 11/10, 21/20, 20, 1/20, 5, 700, 50⟩
      ⟨some 150, none, some 10, some 5⟩).bat_kw_e = some q → 0 ≤ q) ∧
    (∀ q, (calculate_LCOE
      ⟨50, 20, 5000, 100, 300, 800, 400, 11/10, 21/20, 20, 1/20, 5, 700, 50⟩
      ⟨some 150, none, some 10, some 5⟩).capex = some q → 0 ≤ q) ∧
    (∀ q, (calculate_LCOE
      ⟨50, 20, 5000, 100, 300, 800, 400, 11/10, 21/20, 20, 1/20, 5, 700, 50⟩
      ⟨some 150, none, some 10, some 5⟩).capex_oem = some q → 0 ≤ q) ∧
    (∀ q, (calculate_LCOE
      ⟨50, 20, 5000, 100, 300, 800, 400, 11/10, 21/20, 20, 1/20, 5, 700, 50⟩
      ⟨some 150, none, some 10, some 5⟩).opex = some q → 0 ≤ q) :=
  pipeline_nonneg
    ⟨50, 20, 5000, 100, 300, 800, 400, 11/10, 21/20, 20, 1/20, 5, 700, 50⟩
    ⟨some 150, none, some 10, some 5⟩
    (by rintro c hc; cases hc; norm_num)
    (by rintro c hc; cases hc)
    (by rintro c hc; cases hc; norm_num)
    (by rintro c hc; cases hc; norm_num)
    (by norm_num) (by norm_num) (by norm_num) (by norm_num) (by norm_num)
    (by norm_num) (by norm_num) (by norm_num)

/-- Claim C10: the orchestrator LCEO.calculate_LCOE builds a new table (the
source copies the frame before writing) and every pre-existing input column
reappears unchanged in the output, row for row and in the original order;
only the derived columns are added. -/
theorem calculate_LCOE_preserves_input (cfg : Config) (rows : List InputRow) :
    (∀ row : InputRow, (calculate_LCOE cfg row).input = row) ∧
    (calculate_LCOE_table cfg rows).map OutputRow.input = rows := by
  refine ⟨fun row => rfl, ?_⟩
  show (rows.map (calculate_LCOE cfg)).map OutputRow.input = rows
  rw [List.map_map]
  have h : OutputRow.input ∘ calculate_LCOE cfg = id := funext fun row => rfl
  rw [h, List.map_id]

end PVBattery
